import Mathlib

/-!
Shallow embedding of the booking and availability-conflict engine of the
PsicologiaGestao repository (server/routes.ts and server/storage.ts),
together with theorems checking the specified properties.

Times are wall-clock "HH:MM" strings.  The JavaScript source compares such
strings with the relational operators (lexicographic comparison by UTF-16
code unit); we embed that comparison explicitly as jsStrLt, and the
string-to-minutes conversion timeToMinutes of routes.ts via an explicit
embedding of the single-character split used there.

Calendar dates are modelled as natural numbers counting days from an epoch
chosen so that a date d falls on the JavaScript weekday getDay d = d % 7
(0 = Sunday, 6 = Saturday).  The source normalises each stored date to its
ISO day string before comparing; date equality in the model is equality of
the day number.
-/

/-- JavaScript single-character comparison by code unit: a < b on chars. -/
def jsCharLt (a b : Char) : Bool := decide (a.val < b.val)

/-- Lexicographic comparison on character lists, as JavaScript < on strings. -/
def jsStrLtAux : List Char → List Char → Bool
  | [], [] => false
  | [], _ :: _ => true
  | _ :: _, [] => false
  | a :: as, b :: bs => jsCharLt a b || (!jsCharLt b a && jsStrLtAux as bs)

/-- JavaScript string comparison s1 < s2 (lexicographic by code unit). -/
def jsStrLt (a b : String) : Bool := jsStrLtAux a.data b.data

/-- The character for a decimal digit n (n < 10): code point 48 + n. -/
def digitChar (n : Nat) : Char := Char.ofNat (48 + n)

/-- The zero-padded "HH:MM" string with hour h and minute m (h, m < 100). -/
def fmtTime (h m : Nat) : String :=
  ⟨[digitChar (h / 10), digitChar (h % 10), ':', digitChar (m / 10), digitChar (m % 10)]⟩

/-- JavaScript String.prototype.split with a single-character separator:
splits the character list at every occurrence of sep. -/
def splitCharAux (sep : Char) : List Char → List Char → List (List Char)
  | [], acc => [acc.reverse]
  | c :: cs, acc =>
      if c == sep then acc.reverse :: splitCharAux sep cs []
      else splitCharAux sep cs (c :: acc)

/-- JavaScript s.split(sep) for a one-character separator. -/
def jsSplit (s : String) (sep : Char) : List String :=
  (splitCharAux sep s.data []).map (fun l => ⟨l⟩)

/-- Numeric value of a decimal digit character. -/
def digitVal (c : Char) : Nat := c.toNat - 48

/-- JavaScript Number(s) restricted to strings of decimal digits
(the only inputs the booking flow feeds it). -/
def parseNat10 (s : String) : Nat :=
  s.data.foldl (fun acc c => acc * 10 + digitVal c) 0

/-- timeToMinutes of routes.ts: split "HH:MM" at the colon, parse both
parts, return hours * 60 + minutes.  A string that does not split into
exactly two parts is malformed (JavaScript would produce NaN); the model
returns 0 there, a case no claim exercises. -/
def timeToMinutes (timeStr : String) : Nat :=
  match jsSplit timeStr ':' with
  | [h, m] => parseNat10 h * 60 + parseNat10 m
  | _ => 0

/-- An Appointment record (shared/schema.ts appointments table). -/
structure Appointment where
  id : Nat
  patientName : String
  psychologistId : Nat
  roomId : Nat
  date : Nat
  startTime : String
  endTime : String
  status : String
  notes : String
  deriving Repr, DecidableEq

/-- A Room Booking record (shared/schema.ts roomBookings table). -/
structure RoomBooking where
  id : Nat
  roomId : Nat
  psychologistId : Nat
  date : Nat
  startTime : String
  endTime : String
  purpose : String
  deriving Repr, DecidableEq

/-- The MemStorage state of storage.ts: entity maps in insertion order and
the id counters; psychologists are kept as the list of existing ids (the
booking flow only reads the id). -/
structure Storage where
  appointments : List Appointment
  roomBookings : List RoomBooking
  psychologists : List Nat
  appointmentIdCounter : Nat
  roomBookingIdCounter : Nat
  deriving Repr, DecidableEq

/-- The overlap test of checkRoomAvailability in storage.ts, on raw
strings: startTime < existing.endTime && endTime > existing.startTime
with JavaScript lexical string comparison. -/
def lexOverlap (aStart aEnd bStart bEnd : String) : Bool :=
  jsStrLt aStart bEnd && jsStrLt bStart aEnd

/-- The overlap test of the quick-book handler in routes.ts, on minute
offsets: newStart < appEnd && newEnd > appStart after timeToMinutes. -/
def minutesOverlap (aStart aEnd bStart bEnd : String) : Bool :=
  decide (timeToMinutes aStart < timeToMinutes bEnd) &&
  decide (timeToMinutes bStart < timeToMinutes aEnd)

/-- MemStorage.checkRoomAvailability (storage.ts): fetch the bookings on
the date, return the negation of "some booking of the same room overlaps". -/
def checkRoomAvailability (s : Storage) (roomId : Nat) (date : Nat)
    (startTime endTime : String) : Bool :=
  let bookingsOnDate := s.roomBookings.filter (fun b => b.date == date)
  let hasOverlap := bookingsOnDate.any (fun booking =>
    if booking.roomId != roomId then false
    else lexOverlap startTime endTime booking.startTime booking.endTime)
  !hasOverlap

/-- DatabaseStorage.checkRoomAvailability (storage.ts): the room filter is
pushed into the query, the overlap predicate is the same. -/
def dbCheckRoomAvailability (s : Storage) (roomId : Nat) (date : Nat)
    (startTime endTime : String) : Bool :=
  let bookingsOnDate :=
    s.roomBookings.filter (fun b => b.roomId == roomId && b.date == date)
  let hasOverlap := bookingsOnDate.any (fun booking =>
    lexOverlap startTime endTime booking.startTime booking.endTime)
  !hasOverlap

/-- Input accepted by POST /api/appointments after Zod validation
(insertAppointmentSchema). -/
structure InsertAppointment where
  patientName : String
  psychologistId : Nat
  roomId : Nat
  date : Nat
  startTime : String
  endTime : String
  status : String
  notes : String
  deriving Repr, DecidableEq

/-- Input to storage.createRoomBooking. -/
structure InsertRoomBooking where
  roomId : Nat
  psychologistId : Nat
  date : Nat
  startTime : String
  endTime : String
  purpose : String
  deriving Repr, DecidableEq

/-- MemStorage.createAppointment: assign the next id, store, return the
new record. -/
def createAppointment (s : Storage) (a : InsertAppointment) :
    Storage × Appointment :=
  let newAppointment : Appointment :=
    { id := s.appointmentIdCounter, patientName := a.patientName,
      psychologistId := a.psychologistId, roomId := a.roomId, date := a.date,
      startTime := a.startTime, endTime := a.endTime, status := a.status,
      notes := a.notes }
  ({ s with appointments := s.appointments ++ [newAppointment],
            appointmentIdCounter := s.appointmentIdCounter + 1 },
   newAppointment)

/-- MemStorage.createRoomBooking: assign the next id, store, return the
new record. -/
def createRoomBooking (s : Storage) (b : InsertRoomBooking) :
    Storage × RoomBooking :=
  let newRoomBooking : RoomBooking :=
    { id := s.roomBookingIdCounter, roomId := b.roomId,
      psychologistId := b.psychologistId, date := b.date,
      startTime := b.startTime, endTime := b.endTime, purpose := b.purpose }
  ({ s with roomBookings := s.roomBookings ++ [newRoomBooking],
            roomBookingIdCounter := s.roomBookingIdCounter + 1 },
   newRoomBooking)

/-- MemStorage.getPsychologist reduced to what the quick-book handler
needs: does the id exist. -/
def getPsychologist (s : Storage) (id : Nat) : Bool :=
  s.psychologists.contains id

/-- Outcome of POST /api/appointments. -/
inductive PostAppointmentResp where
  /-- 201 with the created appointment. -/
  | created (a : Appointment)
  /-- 409 "Room is not available for the specified time". -/
  | roomConflict409
  deriving Repr, DecidableEq

/-- POST /api/appointments handler (routes.ts): check room availability;
on conflict answer 409 with no write; otherwise create the appointment and
a companion room booking whose purpose references the patient name. -/
def postAppointment (s : Storage) (data : InsertAppointment) :
    Storage × PostAppointmentResp :=
  if checkRoomAvailability s data.roomId data.date data.startTime data.endTime then
    let (s1, appointment) := createAppointment s data
    let (s2, _) := createRoomBooking s1
      { roomId := data.roomId, psychologistId := data.psychologistId,
        date := data.date, startTime := data.startTime, endTime := data.endTime,
        purpose := "Appointment with " ++ data.patientName }
    (s2, .created appointment)
  else
    (s, .roomConflict409)

/-- Body of POST /api/appointments/quick-book before any validation.
Fields that the handler tests for JavaScript falsiness are Options over
their parsed value (none models an absent field; some 0 models the falsy
number 0; the empty string models a falsy string field). -/
structure QuickBookRequest where
  date : Option Nat
  startTime : String
  endTime : String
  patientName : String
  psychologistId : Option Nat
  roomId : Option Nat
  status : String
  notes : String
  deriving Repr, DecidableEq

/-- Outcome of POST /api/appointments/quick-book.  The handler of
routes.ts:362 (the first of the two registrations of this path, hence the
one Express dispatches to) can only produce these four responses: every
request that passes the room check crashes into the catch-all 500, so the
psychologist-conflict 409 and the 201 of the source text are dead code. -/
inductive QuickBookResp where
  /-- 400 "Missing required fields". -/
  | missingFields400
  /-- 404 "Psychologist not found". -/
  | notFound404
  /-- 409: the room is unavailable at that time. -/
  | roomConflict409
  /-- 500 from the catch block: the TypeError thrown inside
  storage.getAppointmentsByDate. -/
  | serverError500
  deriving Repr, DecidableEq

/-- The room id the quick-book handler uses: roomId || 1, so a missing or
falsy room id silently becomes room 1. -/
def effectiveRoomId (roomId : Option Nat) : Nat :=
  match roomId with
  | none => 1
  | some 0 => 1
  | some n => n

/-- POST /api/appointments/quick-book handler (routes.ts:362): reject
missing required fields (JavaScript falsiness) with 400 and an unknown
psychologist with 404; then check room availability for room roomId || 1,
rejecting with 409.  A request that passes the room check then reaches
storage.getAppointmentsByDate(date) with the raw request-body string as
the date argument; both storage implementations immediately call
date.toISOString() on it, which throws a TypeError on a string, and the
handler catch turns that into HTTP 500 with no write.  The psychologist
overlap check, the appointment creation and the companion room booking
that follow in the source text are therefore unreachable. -/
def quickBook (s : Storage) (r : QuickBookRequest) : Storage × QuickBookResp :=
  match r.date, r.psychologistId with
  | some date, some psychologistId =>
    if r.startTime == "" || r.endTime == "" || r.patientName == "" ||
       psychologistId == 0 then
      (s, .missingFields400)
    else if !getPsychologist s psychologistId then
      (s, .notFound404)
    else if !checkRoomAvailability s (effectiveRoomId r.roomId) date
              r.startTime r.endTime then
      (s, .roomConflict409)
    else
      (s, .serverError500)
  | _, _ => (s, .missingFields400)

/-- Partial<Appointment> as sent to PUT /api/appointments/:id: every field
optional, spread over the existing record. -/
structure AppointmentUpdate where
  id : Option Nat := none
  patientName : Option String := none
  psychologistId : Option Nat := none
  roomId : Option Nat := none
  date : Option Nat := none
  startTime : Option String := none
  endTime : Option String := none
  status : Option String := none
  notes : Option String := none
  deriving Repr, DecidableEq

/-- Partial<RoomBooking> as sent to PUT /api/room-bookings/:id. -/
structure RoomBookingUpdate where
  id : Option Nat := none
  roomId : Option Nat := none
  psychologistId : Option Nat := none
  date : Option Nat := none
  startTime : Option String := none
  endTime : Option String := none
  purpose : Option String := none
  deriving Repr, DecidableEq

/-- The JavaScript spread { ...existing, ...data } for appointments. -/
def mergeAppointment (a : Appointment) (u : AppointmentUpdate) : Appointment :=
  { id := u.id.getD a.id, patientName := u.patientName.getD a.patientName,
    psychologistId := u.psychologistId.getD a.psychologistId,
    roomId := u.roomId.getD a.roomId, date := u.date.getD a.date,
    startTime := u.startTime.getD a.startTime,
    endTime := u.endTime.getD a.endTime, status := u.status.getD a.status,
    notes := u.notes.getD a.notes }

/-- The JavaScript spread { ...existing, ...data } for room bookings. -/
def mergeRoomBooking (b : RoomBooking) (u : RoomBookingUpdate) : RoomBooking :=
  { id := u.id.getD b.id, roomId := u.roomId.getD b.roomId,
    psychologistId := u.psychologistId.getD b.psychologistId,
    date := u.date.getD b.date, startTime := u.startTime.getD b.startTime,
    endTime := u.endTime.getD b.endTime, purpose := u.purpose.getD b.purpose }

/-- MemStorage.updateAppointment: merge the partial data over the stored
record when the id exists; no availability check of any kind. -/
def updateAppointment (s : Storage) (id : Nat) (u : AppointmentUpdate) :
    Storage × Option Appointment :=
  match s.appointments.find? (fun a => a.id == id) with
  | none => (s, none)
  | some existing =>
      let updated := mergeAppointment existing u
      ({ s with appointments :=
          s.appointments.map (fun a => if a.id == id then updated else a) },
       some updated)

/-- MemStorage.updateRoomBooking: merge the partial data over the stored
record when the id exists; no availability check of any kind. -/
def updateRoomBooking (s : Storage) (id : Nat) (u : RoomBookingUpdate) :
    Storage × Option RoomBooking :=
  match s.roomBookings.find? (fun b => b.id == id) with
  | none => (s, none)
  | some existing =>
      let updated := mergeRoomBooking existing u
      ({ s with roomBookings :=
          s.roomBookings.map (fun b => if b.id == id then updated else b) },
       some updated)

/-- Outcome of the PUT update routes. -/
inductive PutResp where
  /-- 200 with the updated record serialised. -/
  | ok200
  /-- 404 not found. -/
  | notFound404
  deriving Repr, DecidableEq

/-- PUT /api/appointments/:id handler (routes.ts): delegate directly to
storage.updateAppointment; 404 when the id is unknown. -/
def putAppointment (s : Storage) (id : Nat) (u : AppointmentUpdate) :
    Storage × PutResp :=
  match updateAppointment s id u with
  | (_, none) => (s, .notFound404)
  | (s1, some _) => (s1, .ok200)

/-- PUT /api/room-bookings/:id handler (routes.ts): delegate directly to
storage.updateRoomBooking; 404 when the id is unknown. -/
def putRoomBooking (s : Storage) (id : Nat) (u : RoomBookingUpdate) :
    Storage × PutResp :=
  match updateRoomBooking s id u with
  | (_, none) => (s, .notFound404)
  | (s1, some _) => (s1, .ok200)

/-- JavaScript Date.prototype.getDay on the day-number model:
0 = Sunday, ..., 6 = Saturday. -/
def getDay (date : Nat) : Nat := date % 7

/-- Rendering of a minute offset as the "HH:MM" of toTimeString: hours
wrap modulo 24 when the arithmetic crosses midnight. -/
def fmtClock (minutes : Nat) : String :=
  fmtTime (minutes / 60 % 24) (minutes % 60)

/-- The while loop of calculateTimeSlots (routes.ts): starting at cur,
while the slot start is before the end of the window, emit the slot
"start - end" unless it lexically overlaps a busy interval, then advance
by the duration.  The fuel argument only bounds the number of iterations
so that the recursion is structural: the loop advances by dur ≥ 1 minutes
per step, so endMin units of fuel always suffice; the source loops
forever on a non-positive duration, which the model guards out. -/
def slotsLoop (endMin dur : Nat) (busySlots : List (String × String)) :
    Nat → Nat → List String
  | 0, _ => []
  | fuel + 1, cur =>
    if cur < endMin ∧ 0 < dur then
      let currentTimeStr := fmtClock cur
      let slotEndTimeStr := fmtClock (cur + dur)
      let isAvailable := !(busySlots.any (fun busy =>
        jsStrLt currentTimeStr busy.2 && jsStrLt busy.1 slotEndTimeStr))
      (if isAvailable then [currentTimeStr ++ " - " ++ slotEndTimeStr] else [])
        ++ slotsLoop endMin dur busySlots fuel (cur + dur)
    else []

/-- calculateTimeSlots (routes.ts): parse the working-hours bounds of the
window and run the slot loop from the start bound. -/
def calculateTimeSlots (startTime endTime : String) (durationMinutes : Nat)
    (busySlots : List (String × String)) : List String :=
  slotsLoop (timeToMinutes endTime) durationMinutes busySlots
    (timeToMinutes endTime) (timeToMinutes startTime)

/-- The date-enumeration loop of calculateAvailableSlots: every date from
startDate to endDate inclusive, skipping Saturdays and Sundays. -/
def businessDates (startDate endDate : Nat) : List Nat :=
  (List.range' startDate (endDate + 1 - startDate)).filter
    (fun d => getDay d != 0 && getDay d != 6)

/-- calculateAvailableSlots (routes.ts): for each business date in the
inclusive range, gather the busy intervals of the appointments on that
date and compute the free slots within the fixed working hours
08:00 to 18:00 with 60-minute slots.  The unused psychologist argument of
the source is dropped. -/
def calculateAvailableSlots (startDate endDate : Nat)
    (appointments : List Appointment) : List (Nat × List String) :=
  (businessDates startDate endDate).map (fun date =>
    let dateAppointments := appointments.filter (fun app => app.date == date)
    let busyTimes := dateAppointments.map (fun app => (app.startTime, app.endTime))
    (date, calculateTimeSlots "08:00" "18:00" 60 busyTimes))

/-- Concrete room booking 10:00 to 11:00 in room 1, used by witnesses. -/
def booking10to11 : RoomBooking :=
  { id := 1, roomId := 1, psychologistId := 7, date := 0,
    startTime := "10:00", endTime := "11:00", purpose := "Reserved" }

/-- Concrete store holding booking10to11, used by witnesses. -/
def storeWithBooking : Storage :=
  { appointments := [], roomBookings := [booking10to11], psychologists := [7],
    appointmentIdCounter := 1, roomBookingIdCounter := 2 }

/-- Concrete appointment 09:00 to 10:00 for psychologist 7 in room 2,
used by witnesses. -/
def appt9to10 : Appointment :=
  { id := 1, patientName := "Ana", psychologistId := 7, roomId := 2, date := 3,
    startTime := "09:00", endTime := "10:00", status := "scheduled",
    notes := "" }

/-- Concrete store holding appt9to10 and no room bookings, used by
witnesses. -/
def storeWithAppt : Storage :=
  { appointments := [appt9to10], roomBookings := [], psychologists := [7],
    appointmentIdCounter := 2, roomBookingIdCounter := 1 }

/-- Concrete valid creation input for the staff endpoint: Bob, room 1,
11:00 to 12:00 on date 0, used by witnesses. -/
def insertApptBob : InsertAppointment :=
  { patientName := "Bob", psychologistId := 7, roomId := 1, date := 0,
    startTime := "11:00", endTime := "12:00", status := "scheduled",
    notes := "" }

/-- The appointment record the staff endpoint creates from insertApptBob
on storeWithBooking. -/
def apptBobCreated : Appointment :=
  { id := 1, patientName := "Bob", psychologistId := 7, roomId := 1,
    date := 0, startTime := "11:00", endTime := "12:00",
    status := "scheduled", notes := "" }

/-- Concrete conflicting creation input: room 1, 10:30 to 11:30 on date 0,
overlapping booking10to11, used by witnesses. -/
def insertApptOverlap : InsertAppointment :=
  { patientName := "Bob", psychologistId := 7, roomId := 1, date := 0,
    startTime := "10:30", endTime := "11:30", status := "scheduled",
    notes := "" }

/-- Concrete quick-book request for psychologist 7, 09:30 to 10:30 on
date 3, overlapping appt9to10, used by witnesses. -/
def qbReqOverlap : QuickBookRequest :=
  { date := some 3, startTime := "09:30", endTime := "10:30",
    patientName := "Carla", psychologistId := some 7, roomId := none,
    status := "scheduled", notes := "" }

/-- Concrete quick-book request that passes every check before the fatal
appointments read on storeWithAppt: psychologist 7, 10:00 to 11:00 on
date 3, back-to-back with appt9to10, room 1 free, no room id,
caller-supplied status "confirmed". -/
def qbReqOk : QuickBookRequest :=
  { date := some 3, startTime := "10:00", endTime := "11:00",
    patientName := "Davi", psychologistId := some 7, roomId := none,
    status := "confirmed", notes := "" }

/-- Concrete second booking 12:00 to 13:00 in room 1 on date 0, used by
the update counterexample. -/
def booking12to13 : RoomBooking :=
  { id := 2, roomId := 1, psychologistId := 7, date := 0,
    startTime := "12:00", endTime := "13:00", purpose := "Meeting" }

/-- Concrete store holding booking10to11 and booking12to13, used by the
update counterexample. -/
def storeTwoBookings : Storage :=
  { appointments := [], roomBookings := [booking10to11, booking12to13],
    psychologists := [7], appointmentIdCounter := 1,
    roomBookingIdCounter := 3 }

/-- Concrete partial update moving a booking to 10:30 to 11:30, used by
the update counterexample. -/
def overlapUpdate : RoomBookingUpdate :=
  { startTime := some "10:30", endTime := some "11:30" }

-- Sanity instances for the embedding of the time utilities.
example : jsStrLt "10:30" "11:00" = true := by decide
example : jsStrLt "11:00" "11:00" = false := by decide
example : timeToMinutes "10:30" = 630 := by decide
example : fmtTime 10 30 = "10:30" := by decide
example : jsSplit "10:30" ':' = ["10", "30"] := by decide

/-- Comparing two digit characters agrees with comparing the digits. -/
lemma jsCharLt_digitChar : ∀ a, a < 10 → ∀ b, b < 10 →
    jsCharLt (digitChar a) (digitChar b) = decide (a < b) := by decide

/-- A digit character is never the colon. -/
lemma digitChar_ne_colon : ∀ a, a < 10 → (digitChar a == ':') = false := by decide

/-- A digit character is not lexically below itself dressed as colon tests. -/
lemma jsCharLt_colon_colon : jsCharLt ':' ':' = false := by decide

/-- Value of a digit character. -/
lemma digitVal_digitChar : ∀ a, a < 10 → digitVal (digitChar a) = a := by decide

/-- timeToMinutes recovers h * 60 + m from the zero-padded rendering. -/
lemma timeToMinutes_fmtTime (h m : Nat) (hh : h < 100) (hm : m < 100) :
    timeToMinutes (fmtTime h m) = h * 60 + m := by
  have h1 : h / 10 < 10 := by omega
  have h2 : h % 10 < 10 := by omega
  have h3 : m / 10 < 10 := by omega
  have h4 : m % 10 < 10 := by omega
  simp only [timeToMinutes, fmtTime, jsSplit, splitCharAux,
    digitChar_ne_colon _ h1, digitChar_ne_colon _ h2,
    digitChar_ne_colon _ h3, digitChar_ne_colon _ h4]
  simp only [List.reverse, List.map, parseNat10, List.foldl,
    digitVal_digitChar _ h1, digitVal_digitChar _ h2,
    digitVal_digitChar _ h3, digitVal_digitChar _ h4]
  omega

/-- Lexical comparison of two zero-padded "HH:MM" strings agrees with
comparison of the corresponding minute offsets, for minutes below 60. -/
lemma jsStrLt_fmtTime (h1 m1 h2 m2 : Nat)
    (hh1 : h1 < 100) (hm1 : m1 < 60) (hh2 : h2 < 100) (hm2 : m2 < 60) :
    jsStrLt (fmtTime h1 m1) (fmtTime h2 m2) = decide (h1 * 60 + m1 < h2 * 60 + m2) := by
  have d1 : h1 / 10 < 10 := by omega
  have d2 : h1 % 10 < 10 := by omega
  have d3 : m1 / 10 < 10 := by omega
  have d4 : m1 % 10 < 10 := by omega
  have e1 : h2 / 10 < 10 := by omega
  have e2 : h2 % 10 < 10 := by omega
  have e3 : m2 / 10 < 10 := by omega
  have e4 : m2 % 10 < 10 := by omega
  simp only [jsStrLt, fmtTime, jsStrLtAux, jsCharLt_colon_colon,
    jsCharLt_digitChar _ d1 _ e1, jsCharLt_digitChar _ e1 _ d1,
    jsCharLt_digitChar _ d2 _ e2, jsCharLt_digitChar _ e2 _ d2,
    jsCharLt_digitChar _ d3 _ e3, jsCharLt_digitChar _ e3 _ d3,
    jsCharLt_digitChar _ d4 _ e4, jsCharLt_digitChar _ e4 _ d4]
  rw [Bool.eq_iff_iff]
  simp only [Bool.or_eq_true, Bool.and_eq_true, Bool.not_eq_true',
    decide_eq_true_eq, decide_eq_false_iff_not, Bool.false_or, Bool.not_false,
    Bool.true_and, Bool.false_eq_true, and_false, or_false]
  omega

/-- C1: checkRoomAvailability returns true iff no stored room booking with
the same room id on the same date satisfies the half-open lexical overlap
test startTime < existing.endTime and endTime > existing.startTime; the
DatabaseStorage variant agrees with the MemStorage variant; a request
starting exactly at an existing end is reported available (back-to-back
bookings succeed) while a strictly overlapping request 10:30 to 11:30
against an existing 10:00 to 11:00 is reported unavailable. -/
theorem C1_checkRoomAvailability_iff :
    (∀ (s : Storage) (roomId date : Nat) (st et : String),
      checkRoomAvailability s roomId date st et = true ↔
        ∀ b ∈ s.roomBookings, b.roomId = roomId → b.date = date →
          ¬(jsStrLt st b.endTime = true ∧ jsStrLt b.startTime et = true)) ∧
    (∀ (s : Storage) (roomId date : Nat) (st et : String),
      dbCheckRoomAvailability s roomId date st et =
        checkRoomAvailability s roomId date st et) ∧
    checkRoomAvailability storeWithBooking 1 0 "11:00" "12:00" = true ∧
    checkRoomAvailability storeWithBooking 1 0 "10:30" "11:30" = false := by
  refine ⟨?_, ?_, by decide, by decide⟩
  · intro s roomId date st et
    simp only [checkRoomAvailability, lexOverlap, Bool.not_eq_true',
      List.any_eq_false, List.mem_filter, beq_iff_eq, and_imp]
    constructor
    · intro h b hb hroom hdate
      have hx := h b hb hdate
      simp only [hroom, bne_self_eq_false, Bool.false_eq_true, if_false,
        Bool.and_eq_true] at hx
      tauto
    · intro h b hb hdate
      by_cases hroom : b.roomId = roomId
      · have hx := h b hb hroom hdate
        simp only [hroom, bne_self_eq_false, Bool.false_eq_true, if_false,
          Bool.and_eq_true]
        tauto
      · have hne : (b.roomId != roomId) = true := by
          simp [bne_iff_ne, hroom]
        simp [hne]
  · intro s roomId date st et
    simp only [dbCheckRoomAvailability, checkRoomAvailability]
    rw [Bool.eq_iff_iff]
    simp only [Bool.not_eq_true', List.any_eq_false, List.mem_filter,
      Bool.and_eq_true, beq_iff_eq, and_imp]
    constructor
    · intro h b hb hdate
      by_cases hroom : b.roomId = roomId
      · have hx := h b hb hroom hdate
        simp [bne_iff_ne, hroom, hx]
      · simp [bne_iff_ne, hroom]
    · intro h b hb hroom hdate
      have hx := h b hb hdate
      simpa [bne_iff_ne, hroom] using hx

/-- C1 witness: the general equivalence applied to the concrete store with
one 10:00 to 11:00 booking and the back-to-back request 11:00 to 12:00. -/
theorem C1_checkRoomAvailability_iff_witness :
    checkRoomAvailability storeWithBooking 1 0 "11:00" "12:00" = true :=
  (C1_checkRoomAvailability_iff.1 storeWithBooking 1 0 "11:00" "12:00").mpr
    (by decide)

/-- C2: every successful staff appointment creation also persists a
companion room booking with the same roomId, psychologistId, date,
startTime and endTime as the created appointment, and purpose
"Appointment with " followed by the patient name. -/
theorem C2_postAppointment_companion_booking :
    ∀ (s : Storage) (data : InsertAppointment) (s2 : Storage) (a : Appointment),
      postAppointment s data = (s2, .created a) →
        a ∈ s2.appointments ∧
        ∃ b ∈ s2.roomBookings,
          b.roomId = a.roomId ∧ b.psychologistId = a.psychologistId ∧
          b.date = a.date ∧ b.startTime = a.startTime ∧
          b.endTime = a.endTime ∧
          b.purpose = "Appointment with " ++ a.patientName := by
  intro s data s2 a h
  unfold postAppointment at h
  split at h
  · simp only [createAppointment, createRoomBooking, Prod.mk.injEq,
      PostAppointmentResp.created.injEq] at h
    obtain ⟨hs2, ha⟩ := h
    subst hs2
    subst ha
    refine ⟨by simp, ?_⟩
    exact ⟨_, List.mem_append_right _ (List.mem_singleton_self _),
      rfl, rfl, rfl, rfl, rfl, rfl⟩
  · simp at h

/-- C2 witness: creating the 11:00 to 12:00 appointment on the concrete
store yields the companion booking. -/
theorem C2_postAppointment_companion_booking_witness :
    apptBobCreated ∈
      (postAppointment storeWithBooking insertApptBob).1.appointments ∧
    ∃ b ∈ (postAppointment storeWithBooking insertApptBob).1.roomBookings,
      b.roomId = apptBobCreated.roomId ∧
      b.psychologistId = apptBobCreated.psychologistId ∧
      b.date = apptBobCreated.date ∧
      b.startTime = apptBobCreated.startTime ∧
      b.endTime = apptBobCreated.endTime ∧
      b.purpose = "Appointment with " ++ apptBobCreated.patientName :=
  C2_postAppointment_companion_booking storeWithBooking insertApptBob _
    apptBobCreated (by decide)

/-- C3: when the room availability check fails, POST /api/appointments
answers 409 and leaves the store untouched. -/
theorem C3_postAppointment_conflict_no_writes :
    ∀ (s : Storage) (data : InsertAppointment),
      checkRoomAvailability s data.roomId data.date data.startTime
        data.endTime = false →
      postAppointment s data = (s, .roomConflict409) := by
  intro s data h
  simp [postAppointment, h]

/-- C3 witness: the 10:30 to 11:30 request against the concrete store with
a 10:00 to 11:00 booking is rejected without a write. -/
theorem C3_postAppointment_conflict_no_writes_witness :
    postAppointment storeWithBooking insertApptOverlap =
      (storeWithBooking, .roomConflict409) :=
  C3_postAppointment_conflict_no_writes storeWithBooking insertApptOverlap
    (by decide)

/-- C4 counterexample: the spec scenario itself refutes the claimed 409.
On the concrete store whose only appointment is 09:00 to 10:00 for
psychologist 7 in room 2 (and no room bookings, so the room check
passes), the overlapping 09:30 to 10:30 quick-book request for the same
psychologist is answered 500 — the crash at the appointments read — not
the claimed 409; the store is unchanged. -/
theorem C4_counterexample_500_not_409 :
    quickBook storeWithAppt qbReqOverlap =
      (storeWithAppt, .serverError500) ∧
    (∃ a ∈ storeWithAppt.appointments, a.date = 3 ∧ a.psychologistId = 7 ∧
      timeToMinutes qbReqOverlap.startTime < timeToMinutes a.endTime ∧
      timeToMinutes a.startTime < timeToMinutes qbReqOverlap.endTime) ∧
    QuickBookResp.serverError500 ≠ QuickBookResp.roomConflict409 := by
  refine ⟨by decide, ⟨appt9to10, by decide, by decide, by decide,
    by decide, by decide⟩, by decide⟩

/-- C4 amended: a quick-book request with valid fields and a known
psychologist whose interval overlaps an existing same-psychologist
appointment on that date is rejected with no writes — with 409 when the
room check already conflicts, and otherwise with 500 because the handler
crashes reading the day appointments before the psychologist check; in
every case the store is unchanged. -/
theorem C4_quickBook_psychologist_conflict :
    ∀ (s : Storage) (r : QuickBookRequest) (date pid : Nat),
      r.date = some date → r.psychologistId = some pid →
      r.startTime ≠ "" → r.endTime ≠ "" → r.patientName ≠ "" → pid ≠ 0 →
      getPsychologist s pid = true →
      (∃ a ∈ s.appointments, a.date = date ∧ a.psychologistId = pid ∧
        timeToMinutes r.startTime < timeToMinutes a.endTime ∧
        timeToMinutes a.startTime < timeToMinutes r.endTime) →
      (quickBook s r).1 = s ∧
      ((quickBook s r).2 = .roomConflict409 ∨
       (quickBook s r).2 = .serverError500) := by
  intro s r date pid hdate hpid hst het hpn hpid0 hpsy _hex
  obtain ⟨rdate, rst, ret, rpn, rpid, rroom, rstat, rnotes⟩ := r
  simp only at hdate hpid hst het hpn
  subst hdate
  subst hpid
  by_cases hav : checkRoomAvailability s (effectiveRoomId rroom) date rst ret
  · simp [quickBook, hst, het, hpn, hpid0, hpsy, hav]
  · simp [quickBook, hst, het, hpn, hpid0, hpsy, hav]

/-- C4 witness: the amended rejection applied to the spec scenario, a
psychologist with 09:00 to 10:00 booked receiving a 09:30 to 10:30
request; no writes. -/
theorem C4_quickBook_psychologist_conflict_witness :
    (quickBook storeWithAppt qbReqOverlap).1 = storeWithAppt ∧
    ((quickBook storeWithAppt qbReqOverlap).2 = .roomConflict409 ∨
     (quickBook storeWithAppt qbReqOverlap).2 = .serverError500) :=
  C4_quickBook_psychologist_conflict storeWithAppt qbReqOverlap 3 7
    rfl rfl (by decide) (by decide) (by decide) (by decide) (by decide)
    (by decide)

/-- C8: the quick-book handler can never answer 201.  The request qbReqOk
passes field validation, the psychologist lookup and the room check (room
1 is free on storeWithAppt, the only appointment sits in room 2 and there
is no conflicting interval), yet the handler answers 500 with nothing
persisted: the appointments read crashes before the status-forcing
creation code — which its own comment announces as "Create appointment
with pending-confirmation status" — can run. -/
theorem C8_quickBook_crashes_before_create :
    quickBook storeWithAppt qbReqOk = (storeWithAppt, .serverError500) ∧
    getPsychologist storeWithAppt 7 = true ∧
    checkRoomAvailability storeWithAppt 1 3 "10:00" "11:00" = true := by
  decide

/-- C10 counterexample: the roomless request qbReqOk passes every check
the claim contemplates (valid fields, known psychologist, room 1 free, no
conflicting interval) yet books nothing: the handler answers 500 and the
store is unchanged, so no Appointment and no Room Booking with room id 1
(or any other) is persisted. -/
theorem C10_counterexample_nothing_persisted :
    qbReqOk.roomId = none ∧
    quickBook storeWithAppt qbReqOk = (storeWithAppt, .serverError500) ∧
    (quickBook storeWithAppt qbReqOk).1.appointments =
      storeWithAppt.appointments ∧
    (quickBook storeWithAppt qbReqOk).1.roomBookings =
      storeWithAppt.roomBookings := by decide

/-- C10 amended: a quick-book request with no room id (or the falsy room
id 0) has its room-availability check run against room id 1 — the
argument effectiveRoomId of the check evaluates to 1 — but the handler
never persists anything for any request: every path returns the store
unchanged, because each request that passes the room check fails with 500
at the appointments read, before the creation code. -/
theorem C10_quickBook_default_room_one :
    (∀ (r : QuickBookRequest),
      (r.roomId = none ∨ r.roomId = some 0) →
      effectiveRoomId r.roomId = 1) ∧
    (∀ (s : Storage) (r : QuickBookRequest), (quickBook s r).1 = s) := by
  constructor
  · intro r hroom
    rcases hroom with h | h <;> simp [h, effectiveRoomId]
  · intro s r
    obtain ⟨rdate, rst, ret, rpn, rpid, rroom, rstat, rnotes⟩ := r
    cases rdate with
    | none => simp [quickBook]
    | some date =>
      cases rpid with
      | none => simp [quickBook]
      | some pid =>
        simp only [quickBook]
        split
        · rfl
        · split
          · rfl
          · split
            · rfl
            · rfl

/-- C10 witness: the roomless concrete request checks room 1 and leaves
the store untouched. -/
theorem C10_quickBook_default_room_one_witness :
    effectiveRoomId qbReqOk.roomId = 1 ∧
    (quickBook storeWithAppt qbReqOk).1 = storeWithAppt :=
  ⟨C10_quickBook_default_room_one.1 qbReqOk (Or.inl rfl),
   C10_quickBook_default_room_one.2 storeWithAppt qbReqOk⟩

/-- C9: on well-formed zero-padded "HH:MM" strings (hours below 24,
minutes below 60) the lexical-string overlap test of
checkRoomAvailability and the minute-based overlap test of the quick-book
path return the same boolean. -/
theorem C9_lex_minutes_overlap_agree :
    ∀ (h1 m1 h2 m2 h3 m3 h4 m4 : Nat),
      h1 < 24 → m1 < 60 → h2 < 24 → m2 < 60 →
      h3 < 24 → m3 < 60 → h4 < 24 → m4 < 60 →
      lexOverlap (fmtTime h1 m1) (fmtTime h2 m2) (fmtTime h3 m3)
          (fmtTime h4 m4) =
        minutesOverlap (fmtTime h1 m1) (fmtTime h2 m2) (fmtTime h3 m3)
          (fmtTime h4 m4) := by
  intro h1 m1 h2 m2 h3 m3 h4 m4 a1 b1 a2 b2 a3 b3 a4 b4
  unfold lexOverlap minutesOverlap
  rw [jsStrLt_fmtTime h1 m1 h4 m4 (by omega) b1 (by omega) b4,
      jsStrLt_fmtTime h3 m3 h2 m2 (by omega) b3 (by omega) b2,
      timeToMinutes_fmtTime h1 m1 (by omega) (by omega),
      timeToMinutes_fmtTime h2 m2 (by omega) (by omega),
      timeToMinutes_fmtTime h3 m3 (by omega) (by omega),
      timeToMinutes_fmtTime h4 m4 (by omega) (by omega)]

/-- C9 witness: the two overlap tests agree on the request 10:30 to 11:30
against the booking 10:00 to 11:00. -/
theorem C9_lex_minutes_overlap_agree_witness :
    lexOverlap (fmtTime 10 30) (fmtTime 11 30) (fmtTime 10 0)
        (fmtTime 11 0) =
      minutesOverlap (fmtTime 10 30) (fmtTime 11 30) (fmtTime 10 0)
        (fmtTime 11 0) :=
  C9_lex_minutes_overlap_agree 10 30 11 30 10 0 11 0
    (by decide) (by decide) (by decide) (by decide)
    (by decide) (by decide) (by decide) (by decide)

/-- C6: calculateAvailableSlots emits, for any appointment set, exactly
the non-weekend dates of the inclusive range as entry keys, in strictly
increasing order; a date carries an entry exactly when it lies in range
and is neither Sunday (getDay 0) nor Saturday (getDay 6) — in particular
a fully booked business day still has its (possibly empty) entry. -/
theorem C6_calculateAvailableSlots_dates :
    ∀ (startDate endDate : Nat) (appointments : List Appointment),
      (calculateAvailableSlots startDate endDate appointments).map Prod.fst =
        businessDates startDate endDate ∧
      List.Pairwise (· < ·)
        ((calculateAvailableSlots startDate endDate appointments).map
          Prod.fst) ∧
      ∀ d, (∃ slots, (d, slots) ∈ calculateAvailableSlots startDate endDate
              appointments) ↔
        (startDate ≤ d ∧ d ≤ endDate ∧ getDay d ≠ 0 ∧ getDay d ≠ 6) := by
  intro startDate endDate appointments
  have hmap : (calculateAvailableSlots startDate endDate appointments).map
      Prod.fst = businessDates startDate endDate := by
    simp [calculateAvailableSlots, List.map_map, Function.comp_def]
  have hmem : ∀ d, d ∈ businessDates startDate endDate ↔
      (startDate ≤ d ∧ d ≤ endDate ∧ getDay d ≠ 0 ∧ getDay d ≠ 6) := by
    intro d
    simp only [businessDates, List.mem_filter, List.mem_range'_1,
      Bool.and_eq_true, bne_iff_ne, ne_eq]
    constructor
    · rintro ⟨⟨hle, hlt⟩, h0, h6⟩
      exact ⟨hle, by omega, h0, h6⟩
    · rintro ⟨hle, hub, h0, h6⟩
      exact ⟨⟨hle, by omega⟩, h0, h6⟩
  refine ⟨hmap, ?_, ?_⟩
  · rw [hmap]
    exact List.Pairwise.sublist (List.filter_sublist _)
      (List.pairwise_lt_range' _ _)
  · intro d
    rw [← hmem d]
    constructor
    · rintro ⟨slots, hm⟩
      simp only [calculateAvailableSlots, List.mem_map] at hm
      obtain ⟨date, hdate, heq⟩ := hm
      have hfst : date = d := congrArg Prod.fst heq
      exact hfst ▸ hdate
    · intro hd
      exact ⟨_, List.mem_map_of_mem _ hd⟩

/-- C6 witness: over the range day 8 (a Monday) to day 15 inclusive with
no appointments, the entry keys are exactly the six business days. -/
theorem C6_calculateAvailableSlots_dates_witness :
    (calculateAvailableSlots 8 15 []).map Prod.fst = businessDates 8 15 ∧
    ¬∃ slots, (13, slots) ∈ calculateAvailableSlots 8 15 [] :=
  ⟨(C6_calculateAvailableSlots_dates 8 15 []).1,
   fun hm =>
    absurd (((C6_calculateAvailableSlots_dates 8 15 []).2.2 13).mp hm)
      (by decide)⟩

/-- Every slot the loop emits sits on the grid cur + k * dur, starts
strictly before the window end, ends exactly dur minutes later, and, when
dur divides the remaining window length, ends within the window. -/
lemma slotsLoop_mem_grid (e dur : Nat) (busy : List (String × String)) :
    ∀ (fuel cur : Nat) (slot : String),
      slot ∈ slotsLoop e dur busy fuel cur →
      ∃ k, cur + k * dur < e ∧
        slot = fmtClock (cur + k * dur) ++ " - " ++
          fmtClock (cur + k * dur + dur) ∧
        (dur ∣ e - cur → cur + k * dur + dur ≤ e) := by
  intro fuel
  induction fuel with
  | zero =>
    intro cur slot hmem
    simp [slotsLoop] at hmem
  | succ n ih =>
    intro cur slot hmem
    rw [slotsLoop] at hmem
    by_cases hcond : cur < e ∧ 0 < dur
    · rw [if_pos hcond] at hmem
      simp only [List.mem_append] at hmem
      rcases hmem with hm | hm
      · refine ⟨0, by simpa using hcond.1, ?_, ?_⟩
        · by_cases hav : (!busy.any fun b => jsStrLt (fmtClock cur) b.2 &&
              jsStrLt b.1 (fmtClock (cur + dur))) = true
          · rw [if_pos hav, List.mem_singleton] at hm
            simpa using hm
          · rw [if_neg hav] at hm
            simp at hm
        · intro hdvd
          have hpos : 0 < e - cur := by omega
          have hge := Nat.le_of_dvd hpos hdvd
          omega
      · obtain ⟨k, hk1, hk2, hk3⟩ := ih (cur + dur) slot hm
        have heq : cur + (k + 1) * dur = cur + dur + k * dur := by ring
        refine ⟨k + 1, by omega, by rw [heq]; exact hk2, ?_⟩
        intro hdvd
        have hsub : e - (cur + dur) = (e - cur) - dur := by omega
        have hdvd2 : dur ∣ e - (cur + dur) := by
          rw [hsub]
          exact Nat.dvd_sub' hdvd dvd_rfl
        have := hk3 hdvd2
        omega
    · rw [if_neg hcond] at hmem
      simp at hmem

/-- C7 counterexample: on the window 08:00 to 08:30 with 60-minute slots
(window length not a multiple of the duration) the enumerator emits
"08:00 - 09:00", whose end 09:00 lies beyond the working-hours end 08:30 —
generation stops on the candidate start reaching the end, not on the
candidate end exceeding it. -/
theorem C7_counterexample_slot_past_end :
    calculateTimeSlots "08:00" "08:30" 60 [] = ["08:00 - 09:00"] ∧
    timeToMinutes "08:30" < timeToMinutes "09:00" := by decide

/-- C7 amended: every emitted slot starts at the working-hours start plus
a multiple of the duration and strictly before the working-hours end, and
ends exactly one duration later — which stays within the working hours
whenever the duration divides the window length, but may exceed the end
otherwise. -/
theorem C7_amended_slot_grid :
    ∀ (startTime endTime : String) (d : Nat)
      (busySlots : List (String × String)) (slot : String),
      slot ∈ calculateTimeSlots startTime endTime d busySlots →
      ∃ k, timeToMinutes startTime + k * d < timeToMinutes endTime ∧
        slot = fmtClock (timeToMinutes startTime + k * d) ++ " - " ++
          fmtClock (timeToMinutes startTime + k * d + d) ∧
        (d ∣ timeToMinutes endTime - timeToMinutes startTime →
          timeToMinutes startTime + k * d + d ≤ timeToMinutes endTime) := by
  intro startTime endTime d busySlots slot hmem
  exact slotsLoop_mem_grid (timeToMinutes endTime) d busySlots
    (timeToMinutes endTime) (timeToMinutes startTime) slot hmem

/-- C7 witness: the grid property applied to the slot "09:00 - 10:00" of
the full 08:00 to 18:00 window. -/
theorem C7_amended_slot_grid_witness :
    ∃ k, timeToMinutes "08:00" + k * 60 < timeToMinutes "18:00" ∧
      "09:00 - 10:00" = fmtClock (timeToMinutes "08:00" + k * 60) ++ " - " ++
        fmtClock (timeToMinutes "08:00" + k * 60 + 60) ∧
      (60 ∣ timeToMinutes "18:00" - timeToMinutes "08:00" →
        timeToMinutes "08:00" + k * 60 + 60 ≤ timeToMinutes "18:00") :=
  C7_amended_slot_grid "08:00" "18:00" 60 [] "09:00 - 10:00" (by decide)

/-- C5 counterexample: updating booking 2 of the concrete two-booking
store to 10:30 to 11:30 creates an overlap with booking 1 (same room 1,
same date 0) yet the update is persisted and answered 200 — no overlap
re-check happens on the update path. -/
theorem C5_counterexample_update_unchecked :
    (putRoomBooking storeTwoBookings 2 overlapUpdate).2 = .ok200 ∧
    (putRoomBooking storeTwoBookings 2 overlapUpdate).1.roomBookings =
      [booking10to11,
       { booking12to13 with startTime := "10:30", endTime := "11:30" }] ∧
    lexOverlap "10:30" "11:30" booking10to11.startTime
      booking10to11.endTime = true := by decide

/-- C5 amended: the PUT update paths for appointments and room bookings
never re-read bookings and run no overlap test: whenever the target id
exists, the merged update is persisted unconditionally and 200 returned,
even when the updated interval overlaps another booking. -/
theorem C5_amended_update_persists_unconditionally :
    (∀ (s : Storage) (id : Nat) (u : RoomBookingUpdate) (b : RoomBooking),
      s.roomBookings.find? (fun x => x.id == id) = some b →
      putRoomBooking s id u =
        ({ s with roomBookings := (s.roomBookings.map
            (fun x => if x.id == id then mergeRoomBooking b u else x)) },
         .ok200)) ∧
    (∀ (s : Storage) (id : Nat) (u : AppointmentUpdate) (a : Appointment),
      s.appointments.find? (fun x => x.id == id) = some a →
      putAppointment s id u =
        ({ s with appointments := (s.appointments.map
            (fun x => if x.id == id then mergeAppointment a u else x)) },
         .ok200)) := by
  constructor
  · intro s id u b hfind
    simp [putRoomBooking, updateRoomBooking, hfind]
  · intro s id u a hfind
    simp [putAppointment, updateAppointment, hfind]

/-- C5 witness: the unconditional persistence applied to the concrete
overlapping update of booking 2. -/
theorem C5_amended_update_persists_unconditionally_witness :
    putRoomBooking storeTwoBookings 2 overlapUpdate =
      ({ storeTwoBookings with roomBookings :=
          (storeTwoBookings.roomBookings.map
            (fun x => if x.id == 2 then mergeRoomBooking booking12to13
              overlapUpdate else x)) },
       .ok200) :=
  C5_amended_update_persists_unconditionally.1 storeTwoBookings 2
    overlapUpdate booking12to13 (by decide)
